import Mathlib

/-!
Formal model of the todoapp service layer: owner-scoped task CRUD
(app/services/todo_service.py), JWT issuance and verification
(app/services/auth_service.py), the authentication dependency
(app/dependencies/auth.py), registration (app/services/user_service.py)
and the request-validation rules (app/schemas/todo.py, app/schemas/user.py).

Integers stand for record ids and for instants on one absolute timeline
(seconds).  The relational store is modelled as an in-memory list of rows;
the NOT NULL and VARCHAR(60) column constraints declared on the ORM model
(app/models/todo.py) are checked when a transaction commits, as the
database does.
-/

deriving instance DecidableEq for Except

namespace TodoApp

/-- Status enum `TodoStatus` from app/models/todo.py. -/
inductive TodoStatus
  | pending
  | done
  | cancelled
  deriving DecidableEq, Repr

/-- A row of the `todos` table (app/models/todo.py, class `Todo`).
Fields are `Option`-valued because a Python ORM object can transiently
hold `None` in any column before the commit-time NOT NULL check; the
columns `title`, `description` and `status` are declared
`nullable=False`, `due_date` is nullable.  The server-managed
`created_at` / `updated_at` timestamps play no role in any claim about
tasks and are omitted. -/
structure TodoRec where
  id : Int
  title : Option String
  description : Option String
  status : Option TodoStatus
  due_date : Option Int
  user_id : Int
  deriving DecidableEq, Repr

/-- Errors surfaced by the service layer.  `notFound` and `conflict`
model `HTTPException(404, detail)` and `HTTPException(400, detail)`;
`integrityViolation` models a database IntegrityError raised at
`db.commit()` (propagates as a generic server error, the transaction is
rolled back). -/
inductive SvcError
  | notFound (detail : String)
  | conflict (detail : String)
  | integrityViolation
  deriving DecidableEq, Repr

/-- The query
`db.query(Todo).filter(Todo.id == todo_id, Todo.user_id == user_id).first()`
used by `TodoService.get_todo_by_id`. -/
def firstMatch (db : List TodoRec) (todo_id user_id : Int) : Option TodoRec :=
  (db.filter (fun t => t.id == todo_id && t.user_id == user_id)).head?

/-- `TodoService.get_todo_by_id` (todo_service.py lines 49-74): 404 with a
detail naming only the requested id when the owner-scoped query finds
nothing. -/
def get_todo_by_id (db : List TodoRec) (todo_id user_id : Int) :
    Except SvcError TodoRec :=
  match firstMatch db todo_id user_id with
  | none =>
      Except.error (SvcError.notFound
        ("Todo with id " ++ toString todo_id ++ " not found"))
  | some t => Except.ok t

/-- Creation payload `TodoCreate` (app/schemas/todo.py): title and
description are required, due_date optional; no status field exists on
the schema. -/
structure TodoCreate where
  title : String
  description : String
  due_date : Option Int
  deriving DecidableEq, Repr

/-- `TodoService.create_todo`: builds the row with
`status=TodoStatus.PENDING` regardless of the request and commits it with
a server-assigned id. -/
def create_todo (db : List TodoRec) (c : TodoCreate) (nextId user_id : Int) :
    List TodoRec × TodoRec :=
  let t : TodoRec :=
    { id := nextId
      title := some c.title
      description := some c.description
      status := some TodoStatus.pending
      due_date := c.due_date
      user_id := user_id }
  (db ++ [t], t)

/-- Update payload `TodoUpdate` (app/schemas/todo.py lines 59-90) with
pydantic presence semantics: the outer `Option` is "was the field
explicitly supplied" (what `model_dump(exclude_unset=True)` keeps), the
inner `Option` is the supplied value, which may itself be `null` since
every field is declared `Optional`. -/
structure TodoUpdate where
  title : Option (Option String) := none
  description : Option (Option String) := none
  status : Option (Option TodoStatus) := none
  due_date : Option (Option Int) := none
  deriving DecidableEq, Repr

/-- The `for field, value in update_data.items(): setattr(db_todo, field, value)`
loop of `TodoService.update_todo`: each explicitly supplied field
overwrites the stored value, absent fields are untouched. -/
def apply_update (u : TodoUpdate) (t : TodoRec) : TodoRec :=
  { t with
      title := u.title.getD t.title
      description := u.description.getD t.description
      status := u.status.getD t.status
      due_date := u.due_date.getD t.due_date }

/-- Commit-time column constraints of the `todos` table: `title`,
`description`, `status` are `nullable=False`, `title` is `String(60)`.
(`due_date` is nullable.) -/
def storeOk (t : TodoRec) : Bool :=
  t.title.isSome && t.description.isSome && t.status.isSome &&
    decide ((t.title.getD "").length ≤ 60)

/-- `TodoService.update_todo` (todo_service.py lines 136-177): fetch via
the owner-scoped query, apply exactly the explicitly supplied fields,
then commit; a commit violating a NOT NULL column constraint raises and
rolls back, leaving the store unchanged. -/
def update_todo (db : List TodoRec) (todo_id : Int) (u : TodoUpdate)
    (user_id : Int) : Except SvcError (List TodoRec × TodoRec) :=
  match get_todo_by_id db todo_id user_id with
  | Except.error e => Except.error e
  | Except.ok t =>
      let updated := apply_update u t
      if storeOk updated then
        Except.ok (db.map (fun x => if x.id == t.id then updated else x), updated)
      else
        Except.error SvcError.integrityViolation

/-- `TodoService.delete_todo` (todo_service.py lines 179-197): fetch via
the owner-scoped query, then delete that row. -/
def delete_todo (db : List TodoRec) (todo_id user_id : Int) :
    Except SvcError (List TodoRec) :=
  match get_todo_by_id db todo_id user_id with
  | Except.error e => Except.error e
  | Except.ok t => Except.ok (db.filter (fun x => !(x.id == t.id)))

/-- The optional status filter of `get_all_todos` / `get_todos_count`:
`if status_filter: query = query.filter(Todo.status == status_filter)`. -/
def matchesFilter (filt : Option TodoStatus) (t : TodoRec) : Bool :=
  match filt with
  | none => true
  | some s => t.status == some s

/-- `TodoService.get_all_todos` (todo_service.py lines 76-112): filter by
owner, optionally by status, then `offset(skip).limit(limit)`. -/
def get_all_todos (db : List TodoRec) (user_id : Int)
    (filt : Option TodoStatus) (skip limit : Nat) : List TodoRec :=
  ((((db.filter (fun t => t.user_id == user_id)).filter
      (matchesFilter filt)).drop skip).take limit)

/-- `TodoService.get_todos_count` (todo_service.py lines 114-134): size of
the owner-and-status filtered set, with no pagination parameters. -/
def get_todos_count (db : List TodoRec) (user_id : Int)
    (filt : Option TodoStatus) : Nat :=
  ((db.filter (fun t => t.user_id == user_id)).filter (matchesFilter filt)).length

/-- The field constraints of the `Todo` row as the spec states them for
stored tasks: non-null title of length 1-60, non-null non-empty
description, non-null status.  The 1-60 title range combines the
`String(60)` column with the `min_length=1` schema constraint on every
path that writes a title. -/
def validRec (t : TodoRec) : Bool :=
  t.title.isSome && decide (1 ≤ (t.title.getD "").length) &&
    decide ((t.title.getD "").length ≤ 60) &&
    t.description.isSome && decide (1 ≤ (t.description.getD "").length) &&
    t.status.isSome

/-- The `TodoCreate` schema constraints (app/schemas/todo.py lines
11-29): title 1-60 characters, description at least 1 character. -/
def todoCreateValid (c : TodoCreate) : Bool :=
  decide (1 ≤ c.title.length) && decide (c.title.length ≤ 60) &&
    decide (1 ≤ c.description.length)

/-- What passing `TodoUpdate` schema validation guarantees
(app/schemas/todo.py lines 59-90): a supplied non-null title has 1-60
characters and a supplied non-null description is non-empty.  An
explicitly supplied `null` passes validation for every field, because
each field is declared `Optional`. -/
def todoUpdateValid (u : TodoUpdate) : Bool :=
  (match u.title with
   | some (some s) => decide (1 ≤ s.length) && decide (s.length ≤ 60)
   | _ => true) &&
  (match u.description with
   | some (some s) => decide (1 ≤ s.length)
   | _ => true)

/-! ## Request validation (app/schemas) -/

/-- The shared `validate_due_date` field validator of `TodoBase` and
`TodoUpdate` (app/schemas/todo.py lines 31-48 and 84-90):
`if v is not None and v < datetime.now(v.tzinfo): raise ValueError(...)`.
Both supplied value and current time are instants on the absolute
timeline; `datetime.now(v.tzinfo)` makes the comparison tz-consistent, so
it compares absolute instants. -/
def validate_due_date (now : Int) (v : Option Int) : Except String (Option Int) :=
  match v with
  | none => Except.ok none
  | some d =>
      if d < now then Except.error "due_date must be in the future"
      else Except.ok (some d)

/-- Registration payload `UserCreate` (app/schemas/user.py). -/
structure UserCreate where
  email : String
  username : String
  password : String
  deriving DecidableEq, Repr

def hasUppercase (s : String) : Bool :=
  s.toList.any (fun c => 'A' ≤ c && c ≤ 'Z')

def hasLowercase (s : String) : Bool :=
  s.toList.any (fun c => 'a' ≤ c && c ≤ 'z')

def hasDigit (s : String) : Bool :=
  s.toList.any (fun c => '0' ≤ c && c ≤ '9')

/-- The character class of the regex `[!@#$%^&*(),.?":\x7b\x7d|<>]` in
`UserCreate.validate_password_complexity`. -/
def specialChars : List Char :=
  ['!', '@', '#', '$', '%', '^', '&', '*', '(', ')', ',', '.', '?', '"',
   ':', '\x7b', '\x7d', '|', '<', '>']

def hasSpecial (s : String) : Bool :=
  s.toList.any (fun c => specialChars.contains c)

/-- Password validation at registration: the `min_length=8` field
constraint (checked by pydantic before after-mode validators) followed by
the four character-class checks of
`UserCreate.validate_password_complexity` (app/schemas/user.py lines
28-51), each raising its own distinct message, first failure wins. -/
def validate_password_complexity (v : String) : Except String String :=
  if v.length < 8 then
    Except.error "String should have at least 8 characters"
  else if !(hasUppercase v) then
    Except.error "Password must contain at least one uppercase letter"
  else if !(hasLowercase v) then
    Except.error "Password must contain at least one lowercase letter"
  else if !(hasDigit v) then
    Except.error "Password must contain at least one digit"
  else if !(hasSpecial v) then
    Except.error "Password must contain at least one special character"
  else
    Except.ok v

/-! ## Identity store (app/services/user_service.py, app/models/user.py) -/

/-- A row of the `users` table (app/models/user.py).  The password-hash
function is abstract (bcrypt), passed as a parameter where needed. -/
structure UserRec where
  id : Int
  email : String
  username : String
  hashed_password : String
  is_active : Bool
  created_at : Int
  updated_at : Int
  deriving DecidableEq, Repr

/-- `UserService.create_user` (user_service.py lines 15-57): email
uniqueness checked first, then username uniqueness, each failing with a
400 Conflict carrying its own detail; otherwise the password is hashed
and a row is inserted whose `is_active` column takes its declared default
`True` and whose id and timestamps are server-assigned. -/
def create_user (hash : String → String) (db : List UserRec)
    (u : UserCreate) (nextId now : Int) :
    Except SvcError (List UserRec × UserRec) :=
  if ((db.filter (fun x => x.email == u.email)).head?).isSome then
    Except.error (SvcError.conflict "Email already registered")
  else if ((db.filter (fun x => x.username == u.username)).head?).isSome then
    Except.error (SvcError.conflict "Username already taken")
  else
    let newUser : UserRec :=
      { id := nextId
        email := u.email
        username := u.username
        hashed_password := hash u.password
        is_active := true
        created_at := now
        updated_at := now }
    Except.ok (db ++ [newUser], newUser)

/-- `UserService.get_user_by_id`:
`db.query(User).filter(User.id == user_id).first()`. -/
def get_user_by_id (db : List UserRec) (user_id : Int) : Option UserRec :=
  (db.filter (fun x => x.id == user_id)).head?

/-! ## Credential service (app/services/auth_service.py)

JWT strings are modelled by their observable content: a token either
fails structural parsing / signature verification outright (`malformed`,
covering garbage strings and tokens signed with a different key than the
one compared against) or is a well-formed token signed with some key and
carrying a JSON claims object.  Claim values in the modelled payload
space are JSON integers and strings. -/

/-- A JSON claim value. -/
inductive JValue
  | jint (n : Int)
  | jstr (s : String)
  deriving DecidableEq, Repr

/-- A JSON object of claims (keys unique, first binding wins on lookup). -/
abbrev Claims := List (String × JValue)

/-- A token string as observed by the JWT library. -/
inductive TokenString
  | malformed
  | signed (key : String) (claims : Claims)
  deriving DecidableEq, Repr

/-- `payload.get(k)` on the claims dict. -/
def lookupClaim (cs : Claims) (k : String) : Option JValue :=
  (cs.find? (fun p => p.1 == k)).map (fun p => p.2)

/-- Decimal value of one digit character. -/
def digitVal (c : Char) : Option Nat :=
  if ('0' ≤ c && c ≤ '9') then some (c.toNat - 48) else none

/-- Decimal value of a non-empty all-digit character list. -/
def digitsVal (l : List Char) : Option Nat :=
  l.foldl
    (fun acc c =>
      match acc, digitVal c with
      | some n, some d2 => some (n * 10 + d2)
      | _, _ => none)
    (if l.isEmpty then none else some 0)

/-- Parse an optionally-sign-prefixed decimal integer, as Python
`int(...)` does on the modelled payload strings. -/
def parseInt (s : String) : Option Int :=
  match s.toList with
  | '-' :: rest => (digitsVal rest).map (fun n => -(n : Int))
  | l => (digitsVal l).map (fun n => (n : Int))

/-- Python `int(value)` on a JSON value, as used by the JWT library on
the `exp` claim and by pydantic lax coercion of the `user_id` claim to
`int`: integers pass through, strings must parse as (optionally signed)
decimal integers, anything else fails. -/
def coerceInt : JValue → Option Int
  | JValue.jint n => some n
  | JValue.jstr s => parseInt s

/-- Pydantic lax coercion of the `email` claim to `str`: strings pass
through, integers are not coerced to strings. -/
def coerceStr : JValue → Option String
  | JValue.jstr s => some s
  | JValue.jint _ => none

/-- Python dict.update: drop any existing binding of the key, append the
new one. -/
def setClaim (cs : Claims) (k : String) (v : JValue) : Claims :=
  cs.filter (fun p => !(p.1 == k)) ++ [(k, v)]

/-- `settings.ACCESS_TOKEN_EXPIRE_MINUTES` (app/config.py). -/
def ACCESS_TOKEN_EXPIRE_MINUTES : Int := 30

/-- The `expire` computation of `AuthService.create_access_token`
(auth_service.py lines 60-63).  `expires_delta` is the optional
timedelta override in seconds; the Python guard `if expires_delta:` is a
truthiness test, and `timedelta(0)` is falsy, so a zero override falls
through to the default 30-minute expiry. -/
def token_exp (now : Int) (expires_delta : Option Int) : Int :=
  match expires_delta with
  | some d => if d == 0 then now + ACCESS_TOKEN_EXPIRE_MINUTES * 60 else now + d
  | none => now + ACCESS_TOKEN_EXPIRE_MINUTES * 60

/-- `AuthService.create_access_token` (auth_service.py lines 46-67):
copies the claims, stores the absolute expiration instant under `exp`,
and signs the payload with the process-wide secret. -/
def create_access_token (secret : String) (now : Int) (data : Claims)
    (expires_delta : Option Int) : TokenString :=
  TokenString.signed secret
    (setClaim data "exp" (JValue.jint (token_exp now expires_delta)))

/-- Errors raised inside `jose.jwt.decode`; all are subclasses of
`JWTError` and are caught by `decode_token`. -/
inductive JwtError
  | invalidSignature
  | expired
  | claimsError
  deriving DecidableEq, Repr

/-- `jose.jwt.decode(token, key, algorithms=[...])`: signature
verification, then expiry validation of the `exp` claim when present
(`int(exp)` coercion, expired when `exp < now` with zero leeway; a token
with no `exp` claim is not expiry-checked). -/
def jwt_decode (secret : String) (now : Int) (tok : TokenString) :
    Except JwtError Claims :=
  match tok with
  | TokenString.malformed => Except.error JwtError.invalidSignature
  | TokenString.signed key cs =>
      if key == secret then
        match lookupClaim cs "exp" with
        | none => Except.ok cs
        | some v =>
            match coerceInt v with
            | none => Except.error JwtError.claimsError
            | some e =>
                if e < now then Except.error JwtError.expired
                else Except.ok cs
      else Except.error JwtError.invalidSignature

/-- Decoded claim data `TokenData` (app/schemas/user.py): pydantic model
with `user_id : int` and `email : str`. -/
structure TokenData where
  user_id : Int
  email : String
  deriving DecidableEq, Repr

/-- Outcome of a Python call: a returned value, or an uncaught raised
exception. -/
inductive PyResult (α : Type)
  | ret (v : α)
  | raised
  deriving DecidableEq, Repr

/-- `AuthService.decode_token` (auth_service.py lines 69-90): `JWTError`
is caught and turned into `None`, as is a payload missing `user_id` or
`email`; but the `TokenData(user_id=..., email=...)` construction runs
pydantic validation, and a pydantic `ValidationError` (claim values of
the wrong type) is NOT caught by the `except JWTError` clause and
escapes. -/
def decode_token (secret : String) (now : Int) (tok : TokenString) :
    PyResult (Option TokenData) :=
  match jwt_decode secret now tok with
  | Except.error _ => PyResult.ret none
  | Except.ok payload =>
      match lookupClaim payload "user_id", lookupClaim payload "email" with
      | none, _ => PyResult.ret none
      | some _, none => PyResult.ret none
      | some u, some e =>
          match coerceInt u, coerceStr e with
          | some n, some s => PyResult.ret (some { user_id := n, email := s })
          | some _, none => PyResult.raised
          | none, _ => PyResult.raised

/-! ## Authentication middleware (app/dependencies/auth.py) -/

/-- Outcome of the `get_current_user` dependency for one request. -/
inductive AuthOutcome
  | ok (u : UserRec)
  | unauthorized (detail : String)
  | forbidden (detail : String)
  | serverError
  deriving DecidableEq, Repr

/-- `get_current_user` (auth.py lines 17-56).  A request with no bearer
token is rejected 401 by the `OAuth2PasswordBearer` scheme before the
body runs; an uncaught exception out of `decode_token` becomes a generic
server error; an invalid token and an unresolvable `user_id` both raise
the one shared `credentials_exception`; a resolved but inactive user is
rejected 403; otherwise the resolved user is returned (attached to the
request context). -/
def get_current_user (secret : String) (now : Int) (db : List UserRec)
    (token : Option TokenString) : AuthOutcome :=
  match token with
  | none => AuthOutcome.unauthorized "Not authenticated"
  | some tok =>
      match decode_token secret now tok with
      | PyResult.raised => AuthOutcome.serverError
      | PyResult.ret none => AuthOutcome.unauthorized "Could not validate credentials"
      | PyResult.ret (some td) =>
          match get_user_by_id db td.user_id with
          | none => AuthOutcome.unauthorized "Could not validate credentials"
          | some user =>
              if user.is_active then AuthOutcome.ok user
              else AuthOutcome.forbidden "Inactive user"

/-! ## Helper lemmas -/

lemma head?_some_mem {α : Type} {l : List α} {a : α} (h : l.head? = some a) :
    a ∈ l := by
  cases l with
  | nil => cases h
  | cons b t =>
      simp only [List.head?_cons, Option.some.injEq] at h
      simp [h]

lemma filter_eq_nil_of_forall {α : Type} (p : α → Bool) (l : List α)
    (h : ∀ x ∈ l, p x = false) : l.filter p = [] := by
  induction l with
  | nil => rfl
  | cons a t ih =>
      have ha := h a (List.mem_cons_self a t)
      simp only [List.filter_cons, ha, Bool.false_eq_true, if_false]
      exact ih fun x hx => h x (List.mem_cons_of_mem a hx)

lemma head_filter_isSome {α : Type} (p : α → Bool) (l : List α) :
    ((l.filter p).head?).isSome = true ↔ ∃ x ∈ l, p x = true := by
  induction l with
  | nil => simp
  | cons a t ih =>
      by_cases h : p a = true
      · simp [List.filter_cons, h]
      · simp only [List.filter_cons, h, Bool.false_eq_true, if_false, ih]
        constructor
        · intro hx
          obtain ⟨x, hx1, hx2⟩ := hx
          exact ⟨x, List.mem_cons_of_mem a hx1, hx2⟩
        · intro hx
          obtain ⟨x, hx1, hx2⟩ := hx
          rcases List.mem_cons.mp hx1 with hq | hq
          · subst hq; exact absurd hx2 h
          · exact ⟨x, hq, hx2⟩

lemma get_all_todos_owner {db : List TodoRec} {uid : Int}
    {filt : Option TodoStatus} {skip limit : Nat} {t : TodoRec}
    (ht : t ∈ get_all_todos db uid filt skip limit) :
    t.user_id = uid ∧ matchesFilter filt t = true := by
  unfold get_all_todos at ht
  have h1 := List.take_subset _ _ ht
  have h2 := List.drop_subset _ _ h1
  have h3 := List.mem_filter.mp h2
  have h4 := List.mem_filter.mp h3.1
  refine ⟨?_, h3.2⟩
  have := h4.2
  simpa using this

lemma firstMatch_none_of_other_owner {db : List TodoRec} {tid A B : Int}
    (hAB : A ≠ B) (hOwn : ∀ t ∈ db, t.id = tid → t.user_id = A) :
    firstMatch db tid B = none := by
  unfold firstMatch
  rw [filter_eq_nil_of_forall _ db ?_]
  · rfl
  · intro t htm
    by_cases hid : t.id = tid
    · have huid := hOwn t htm hid
      simp [hid, huid]
      intro h
      exact absurd (huid ▸ h) hAB
    · simp [hid]

lemma get_todo_ok {db : List TodoRec} {tid uid : Int} {t0 : TodoRec}
    (h : get_todo_by_id db tid uid = Except.ok t0) :
    t0 ∈ db ∧ t0.id = tid ∧ t0.user_id = uid := by
  unfold get_todo_by_id at h
  cases hfm : firstMatch db tid uid with
  | none => rw [hfm] at h; cases h
  | some t1 =>
      rw [hfm] at h
      simp only [Except.ok.injEq] at h
      subst h
      unfold firstMatch at hfm
      have hmem := head?_some_mem hfm
      have h2 := List.mem_filter.mp hmem
      have h3 := h2.2
      simp only [Bool.and_eq_true, beq_iff_eq] at h3
      exact ⟨h2.1, h3.1, h3.2⟩

/-! ## Claim theorems -/

/-- C1: cross-user isolation.  For identities `A ≠ B` and a store in
which every task with the requested id belongs to `A`, `getById`,
`update` and `delete` invoked with `B` all fail with the same 404
NotFound outcome that an entirely empty store produces (so existence
under another owner is indistinguishable from non-existence, and no
mutation happens), and no task listed for `B` is owned by anyone else. -/
theorem cross_user_isolation (db : List TodoRec) (tid A B : Int)
    (u : TodoUpdate) (hAB : A ≠ B)
    (hOwn : ∀ t ∈ db, t.id = tid → t.user_id = A) :
    get_todo_by_id db tid B =
      Except.error (SvcError.notFound
        ("Todo with id " ++ toString tid ++ " not found")) ∧
    get_todo_by_id db tid B = get_todo_by_id [] tid B ∧
    update_todo db tid u B = update_todo [] tid u B ∧
    delete_todo db tid B = delete_todo [] tid B ∧
    (∀ filt skip limit t, t ∈ get_all_todos db B filt skip limit →
      t.user_id = B) := by
  have hfm : firstMatch db tid B = none :=
    firstMatch_none_of_other_owner hAB hOwn
  have h1 : get_todo_by_id db tid B =
      Except.error (SvcError.notFound
        ("Todo with id " ++ toString tid ++ " not found")) := by
    unfold get_todo_by_id
    rw [hfm]
  refine ⟨h1, by rw [h1]; rfl, ?_, ?_, ?_⟩
  · unfold update_todo
    rw [h1]
    rfl
  · unfold delete_todo
    rw [h1]
    rfl
  · intro filt skip limit t ht
    exact (get_all_todos_owner ht).1

/-- C1 witness: a concrete task owned by identity 1 is invisible to
identity 2. -/
theorem cross_user_isolation_witness :
    get_todo_by_id
        [⟨1, some "t", some "d", some TodoStatus.pending, none, 1⟩] 1 2 =
      Except.error (SvcError.notFound
        ("Todo with id " ++ toString (1 : Int) ++ " not found")) :=
  (cross_user_isolation
      [⟨1, some "t", some "d", some TodoStatus.pending, none, 1⟩] 1 1 2
      { } (by decide) (by decide)).1

/-- C2 counterexample: a due-date exactly equal to the current instant is
accepted by the validator, although it is not strictly later than the
current instant, refuting the claimed "accepts if and only if strictly
later". -/
theorem due_date_boundary_cex :
    validate_due_date 100 (some 100) = Except.ok (some 100) ∧
      ¬((100 : Int) > 100) := by
  exact ⟨rfl, by decide⟩

/-- C2 (amended): a request carrying a due-date is accepted exactly when
the due-date is not earlier than the current instant at validation time
(later-or-equal, the comparison honoring the supplied value's time zone
by comparing absolute instants); in particular a due-date one second in
the past is rejected with the validation error and one second in the
future is accepted. -/
theorem validate_due_date_spec (now d : Int) :
    (validate_due_date now none = Except.ok none) ∧
    (validate_due_date now (some d) = Except.ok (some d) ↔ now ≤ d) ∧
    (validate_due_date now (some d) =
        Except.error "due_date must be in the future" ↔ d < now) ∧
    (validate_due_date now (some (now - 1)) =
      Except.error "due_date must be in the future") ∧
    (validate_due_date now (some (now + 1)) = Except.ok (some (now + 1))) := by
  refine ⟨rfl, ?_, ?_, ?_, ?_⟩
  · simp only [validate_due_date]
    by_cases h : d < now
    · rw [if_pos h]
      exact ⟨fun hc => Except.noConfusion hc, fun hc => by omega⟩
    · rw [if_neg h]
      exact ⟨fun _ => by omega, fun _ => rfl⟩
  · simp only [validate_due_date]
    by_cases h : d < now
    · rw [if_pos h]
      exact ⟨fun _ => h, fun _ => rfl⟩
    · rw [if_neg h]
      exact ⟨fun hc => Except.noConfusion hc, fun hc => absurd hc h⟩
  · simp only [validate_due_date]
    rw [if_pos (show now - 1 < now by omega)]
  · simp only [validate_due_date]
    rw [if_neg (show ¬(now + 1 < now) by omega)]

/-- C8: password complexity at registration.  A password is accepted
exactly when it has at least 8 characters, an uppercase letter, a
lowercase letter, a digit and a character from the defined special set;
each character-class check that fails (the earlier checks passing)
reports its own distinct violation message. -/
theorem password_complexity_spec (p : String) :
    (validate_password_complexity p = Except.ok p ↔
      (8 ≤ p.length ∧ hasUppercase p = true ∧ hasLowercase p = true ∧
        hasDigit p = true ∧ hasSpecial p = true)) ∧
    (8 ≤ p.length → hasUppercase p = false →
      validate_password_complexity p =
        Except.error "Password must contain at least one uppercase letter") ∧
    (8 ≤ p.length → hasUppercase p = true → hasLowercase p = false →
      validate_password_complexity p =
        Except.error "Password must contain at least one lowercase letter") ∧
    (8 ≤ p.length → hasUppercase p = true → hasLowercase p = true →
      hasDigit p = false →
      validate_password_complexity p =
        Except.error "Password must contain at least one digit") ∧
    (8 ≤ p.length → hasUppercase p = true → hasLowercase p = true →
      hasDigit p = true → hasSpecial p = false →
      validate_password_complexity p =
        Except.error "Password must contain at least one special character") := by
  unfold validate_password_complexity
  refine ⟨?_, ?_, ?_, ?_, ?_⟩ <;>
    split_ifs with h1 h2 h3 h4 h5 <;>
    simp_all

/-- C8 witness: the spec's five concrete passwords behave as claimed. -/
theorem password_complexity_witness :
    validate_password_complexity "alllowercase1!" =
      Except.error "Password must contain at least one uppercase letter" ∧
    validate_password_complexity "ALLUPPER1!" =
      Except.error "Password must contain at least one lowercase letter" ∧
    validate_password_complexity "NoDigits!" =
      Except.error "Password must contain at least one digit" ∧
    validate_password_complexity "NoSpecial1" =
      Except.error "Password must contain at least one special character" ∧
    validate_password_complexity "Valid1Pass!" = Except.ok "Valid1Pass!" := by
  refine ⟨?_, ?_, ?_, ?_, ?_⟩
  · exact (password_complexity_spec "alllowercase1!").2.1 (by decide) (by decide)
  · exact (password_complexity_spec "ALLUPPER1!").2.2.1 (by decide) (by decide)
      (by decide)
  · exact (password_complexity_spec "NoDigits!").2.2.2.1 (by decide) (by decide)
      (by decide) (by decide)
  · exact (password_complexity_spec "NoSpecial1").2.2.2.2 (by decide)
      (by decide) (by decide) (by decide) (by decide)
  · exact (password_complexity_spec "Valid1Pass!").1.mpr
      ⟨by decide, by decide, by decide, by decide, by decide⟩

lemma todos_count_countP (db : List TodoRec) (uid : Int)
    (filt : Option TodoStatus) :
    get_todos_count db uid filt =
      db.countP (fun t => t.user_id == uid && matchesFilter filt t) := by
  induction db with
  | nil => rfl
  | cons a l ih =>
      by_cases h1 : (a.user_id == uid) = true
      · by_cases h2 : matchesFilter filt a = true
        · simp [get_todos_count, List.filter_cons, h1, h2, List.countP_cons,
            get_todos_count] at ih ⊢
          omega
        · simp [get_todos_count, List.filter_cons, h1, h2, List.countP_cons,
            get_todos_count] at ih ⊢
          exact ih
      · simp [get_todos_count, List.filter_cons, h1, List.countP_cons,
          get_todos_count] at ih ⊢
        exact ih

/-- C6: pagination.  For any owner, optional status filter, offset
`skip` and page cap `limit` in the route-enforced range 1-1000, the
returned page has at most `limit` items, every returned item is owned by
the requesting owner and matches the filter, and the returned total is
the size of the whole filtered set (a count over the store that takes no
pagination parameters, hence independent of `skip` and `limit`). -/
theorem list_pagination_spec (db : List TodoRec) (uid : Int)
    (filt : Option TodoStatus) (skip limit : Nat)
    (hlim : 1 ≤ limit ∧ limit ≤ 1000) :
    (get_all_todos db uid filt skip limit).length ≤ limit ∧
    (∀ t ∈ get_all_todos db uid filt skip limit,
      t.user_id = uid ∧ matchesFilter filt t = true) ∧
    get_todos_count db uid filt =
      db.countP (fun t => t.user_id == uid && matchesFilter filt t) := by
  refine ⟨?_, ?_, todos_count_countP db uid filt⟩
  · unfold get_all_todos
    exact List.length_take_le _ _
  · intro t ht
    exact get_all_todos_owner ht

/-- C6 witness: a concrete two-task store paged with the default
limit. -/
theorem list_pagination_witness :
    (get_all_todos
        [⟨1, some "a", some "b", some TodoStatus.pending, none, 7⟩,
         ⟨2, some "c", some "d", some TodoStatus.done, none, 8⟩]
        7 none 0 100).length ≤ 100 :=
  (list_pagination_spec
      [⟨1, some "a", some "b", some TodoStatus.pending, none, 7⟩,
       ⟨2, some "c", some "d", some TodoStatus.done, none, 8⟩]
      7 none 0 100 (by decide)).1

/-- C9: registration uniqueness.  `create_user` fails with the
email-conflict error whenever some stored identity already has the
requested email (whatever its username, so also when both conflict:
email is checked first); with no email conflict it fails with the
username-conflict error whenever the username is taken; with neither
conflict it appends exactly one new identity which is returned, carrying
`active = true`, the bcrypt hash of the password (never the plaintext,
as long as the hash differs from its input), the server-assigned id and
the server-assigned timestamps. -/
theorem create_user_spec (hash : String → String) (db : List UserRec)
    (u : UserCreate) (nextId now : Int) :
    ((∃ x ∈ db, x.email = u.email) →
      create_user hash db u nextId now =
        Except.error (SvcError.conflict "Email already registered")) ∧
    ((∀ x ∈ db, x.email ≠ u.email) → (∃ x ∈ db, x.username = u.username) →
      create_user hash db u nextId now =
        Except.error (SvcError.conflict "Username already taken")) ∧
    ((∀ x ∈ db, x.email ≠ u.email) → (∀ x ∈ db, x.username ≠ u.username) →
      ∃ nu : UserRec,
        create_user hash db u nextId now = Except.ok (db ++ [nu], nu) ∧
        nu.email = u.email ∧ nu.username = u.username ∧
        nu.is_active = true ∧ nu.hashed_password = hash u.password ∧
        nu.id = nextId ∧ nu.created_at = now ∧ nu.updated_at = now ∧
        (hash u.password ≠ u.password → nu.hashed_password ≠ u.password)) := by
  refine ⟨?_, ?_, ?_⟩
  · intro hmail
    obtain ⟨x, hx, hxe⟩ := hmail
    have hsome : (((db.filter (fun y => y.email == u.email)).head?).isSome) = true :=
      (head_filter_isSome _ _).mpr ⟨x, hx, by simp [hxe]⟩
    unfold create_user
    rw [if_pos hsome]
  · intro hmail huser
    have hnosome :
        (((db.filter (fun y => y.email == u.email)).head?).isSome) = false := by
      rw [Bool.eq_false_iff]
      intro hc
      obtain ⟨x, hx, hxe⟩ := (head_filter_isSome _ _).mp hc
      exact hmail x hx (by simpa using hxe)
    obtain ⟨x, hx, hxu⟩ := huser
    have hsome : (((db.filter (fun y => y.username == u.username)).head?).isSome) = true :=
      (head_filter_isSome _ _).mpr ⟨x, hx, by simp [hxu]⟩
    unfold create_user
    rw [hnosome]
    simp only [Bool.false_eq_true, if_false]
    rw [if_pos hsome]
  · intro hmail huser
    have hnomail :
        (((db.filter (fun y => y.email == u.email)).head?).isSome) = false := by
      rw [Bool.eq_false_iff]
      intro hc
      obtain ⟨x, hx, hxe⟩ := (head_filter_isSome _ _).mp hc
      exact hmail x hx (by simpa using hxe)
    have hnouser :
        (((db.filter (fun y => y.username == u.username)).head?).isSome) = false := by
      rw [Bool.eq_false_iff]
      intro hc
      obtain ⟨x, hx, hxu⟩ := (head_filter_isSome _ _).mp hc
      exact huser x hx (by simpa using hxu)
    refine ⟨{ id := nextId, email := u.email, username := u.username,
              hashed_password := hash u.password, is_active := true,
              created_at := now, updated_at := now }, ?_,
            rfl, rfl, rfl, rfl, rfl, rfl, rfl, fun h => h⟩
    unfold create_user
    rw [hnomail, hnouser]
    simp

/-- C9 witness: a second registration reusing a stored email fails with
the email conflict even though the username differs. -/
theorem create_user_spec_witness :
    create_user (fun s => String.append "h" s)
        [⟨1, "a@b.c", "alice", "hpw", true, 0, 0⟩]
        ⟨"a@b.c", "bob", "pw2"⟩ 2 5 =
      Except.error (SvcError.conflict "Email already registered") :=
  (create_user_spec (fun s => String.append "h" s)
      [⟨1, "a@b.c", "alice", "hpw", true, 0, 0⟩]
      ⟨"a@b.c", "bob", "pw2"⟩ 2 5).1
    ⟨⟨1, "a@b.c", "alice", "hpw", true, 0, 0⟩, by decide, by decide⟩

lemma validRec_apply_update (u : TodoUpdate) (t0 : TodoRec)
    (h0 : validRec t0 = true) (hu : todoUpdateValid u = true)
    (hs0 : storeOk (apply_update u t0) = true) :
    validRec (apply_update u t0) = true := by
  rcases u with ⟨ut, ud, us, udd⟩
  simp only [validRec, todoUpdateValid, storeOk, apply_update] at *
  rcases ut with _ | (_ | s) <;> rcases ud with _ | (_ | d2) <;>
    rcases us with _ | (_ | st) <;> simp_all

lemma storeOk_apply_update (u : TodoUpdate) (t0 : TodoRec)
    (h0 : validRec t0 = true) (hu : todoUpdateValid u = true)
    (ht : u.title ≠ some none) (hd : u.description ≠ some none)
    (hs : u.status ≠ some none) :
    storeOk (apply_update u t0) = true := by
  rcases u with ⟨ut, ud, us, udd⟩
  simp only [validRec, todoUpdateValid, storeOk, apply_update] at *
  rcases ut with _ | (_ | s) <;> rcases ud with _ | (_ | d2) <;>
    rcases us with _ | (_ | st) <;> simp_all

/-- C10: invariant preservation.  If every stored task satisfies the
field constraints (non-null 1-60-character title, non-null non-empty
description, non-null status) then after any `update_todo` that passes
schema validation — including updates whose title, description or status
is explicitly supplied as null, which commit-time NOT NULL constraints
turn into a rolled-back integrity error — every task still in the store
satisfies them, and any task produced by `create_todo` from a
schema-valid creation payload satisfies them as well. -/
theorem todo_invariant_preserved (db : List TodoRec) (tid uid nextId : Int)
    (u : TodoUpdate) (c : TodoCreate)
    (hdb : ∀ t ∈ db, validRec t = true)
    (hu : todoUpdateValid u = true) (hc : todoCreateValid c = true) :
    (∀ db2 r, update_todo db tid u uid = Except.ok (db2, r) →
      ∀ t ∈ db2, validRec t = true) ∧
    (∀ t ∈ (create_todo db c nextId uid).1, validRec t = true) := by
  constructor
  · intro db2 r h
    unfold update_todo at h
    cases hg : get_todo_by_id db tid uid with
    | error e => rw [hg] at h; cases h
    | ok t0 =>
        rw [hg] at h
        simp only at h
        by_cases hsk : storeOk (apply_update u t0) = true
        · rw [if_pos hsk] at h
          simp only [Except.ok.injEq, Prod.mk.injEq] at h
          obtain ⟨hdb2, hr⟩ := h
          subst hdb2
          intro t htm
          obtain ⟨x, hx, hfx⟩ := List.mem_map.mp htm
          have hvalid0 : validRec t0 = true := hdb t0 (get_todo_ok hg).1
          by_cases hxi : (x.id == t0.id) = true
          · rw [if_pos hxi] at hfx
            rw [← hfx]
            exact validRec_apply_update u t0 hvalid0 hu hsk
          · rw [if_neg hxi] at hfx
            rw [← hfx]
            exact hdb x hx
        · rw [if_neg hsk] at h
          cases h
  · intro t htm
    unfold create_todo at htm
    simp only [todoCreateValid, Bool.and_eq_true, decide_eq_true_eq] at hc
    rcases List.mem_append.mp htm with hin | hin
    · exact hdb t hin
    · have : t = ⟨nextId, some c.title, some c.description,
          some TodoStatus.pending, c.due_date, uid⟩ := by
        simpa using hin
      subst this
      simp [validRec]
      exact ⟨⟨hc.1.1, hc.1.2⟩, hc.2⟩

/-- C10 witness: a concrete schema-valid status update keeps the stored
task within the field constraints. -/
theorem todo_invariant_witness :
    validRec ⟨1, some "a", some "b", some TodoStatus.done, none, 1⟩ = true :=
  (todo_invariant_preserved
      [⟨1, some "a", some "b", some TodoStatus.pending, none, 1⟩] 1 1 2
      { status := some (some TodoStatus.done) } ⟨"t", "d", none⟩
      (by decide) (by decide) (by decide)).1
    [⟨1, some "a", some "b", some TodoStatus.done, none, 1⟩]
    ⟨1, some "a", some "b", some TodoStatus.done, none, 1⟩
    (by decide)
    ⟨1, some "a", some "b", some TodoStatus.done, none, 1⟩
    (by decide)

/-- C5 counterexample: a title field explicitly supplied as null passes
`TodoUpdate` schema validation, yet the update is not applied — the
commit violates the NOT NULL column constraint and the whole request
fails with an integrity error, leaving the task unchanged — refuting
"a field explicitly present is applied" for every request. -/
theorem update_frame_null_cex :
    todoUpdateValid { title := some none } = true ∧
    update_todo [⟨1, some "a", some "b", some TodoStatus.pending, none, 1⟩] 1
        { title := some none } 1 = Except.error SvcError.integrityViolation := by
  exact ⟨by decide, by decide⟩

/-- C5 (amended): partial-update frame for updates whose explicitly
supplied title, description and status values are non-null (an
explicitly-null one fails the whole update with an integrity error and
changes nothing).  For an existing task owned by the caller, the update
succeeds, the store keeps every other task unchanged, and in the updated
task every field absent from the request keeps its stored value while
every explicitly supplied field (equal to the current value or not)
takes the supplied value; the empty payload changes nothing. -/
theorem update_todo_frame (db : List TodoRec) (tid uid : Int)
    (u : TodoUpdate) (t0 : TodoRec)
    (hfind : firstMatch db tid uid = some t0)
    (hv0 : validRec t0 = true)
    (hu : todoUpdateValid u = true)
    (ht : u.title ≠ some none) (hd : u.description ≠ some none)
    (hs : u.status ≠ some none) :
    update_todo db tid u uid =
      Except.ok (db.map (fun x => if x.id == t0.id then apply_update u t0 else x),
        apply_update u t0) ∧
    (u.title = none → (apply_update u t0).title = t0.title) ∧
    (∀ v, u.title = some v → (apply_update u t0).title = v) ∧
    (u.description = none → (apply_update u t0).description = t0.description) ∧
    (∀ v, u.description = some v → (apply_update u t0).description = v) ∧
    (u.status = none → (apply_update u t0).status = t0.status) ∧
    (∀ v, u.status = some v → (apply_update u t0).status = v) ∧
    (u.due_date = none → (apply_update u t0).due_date = t0.due_date) ∧
    (∀ v, u.due_date = some v → (apply_update u t0).due_date = v) ∧
    (u = { title := none, description := none, status := none,
           due_date := none } → apply_update u t0 = t0) := by
  have hsk : storeOk (apply_update u t0) = true :=
    storeOk_apply_update u t0 hv0 hu ht hd hs
  refine ⟨?_, ?_, ?_, ?_, ?_, ?_, ?_, ?_, ?_, ?_⟩
  · unfold update_todo get_todo_by_id
    rw [hfind]
    simp only
    rw [if_pos hsk]
  · intro h; simp [apply_update, h]
  · intro v h; simp [apply_update, h]
  · intro h; simp [apply_update, h]
  · intro v h; simp [apply_update, h]
  · intro h; simp [apply_update, h]
  · intro v h; simp [apply_update, h]
  · intro h; simp [apply_update, h]
  · intro v h; simp [apply_update, h]
  · intro h
    subst h
    rfl

/-- C5 witness: a concrete update supplying only a new title changes
exactly the title. -/
theorem update_todo_frame_witness :
    update_todo [⟨1, some "a", some "b", some TodoStatus.pending, none, 1⟩] 1
        { title := some (some "new") } 1 =
      Except.ok ([⟨1, some "new", some "b", some TodoStatus.pending, none, 1⟩],
        ⟨1, some "new", some "b", some TodoStatus.pending, none, 1⟩) :=
  ((update_todo_frame
      [⟨1, some "a", some "b", some TodoStatus.pending, none, 1⟩] 1 1
      { title := some (some "new") }
      ⟨1, some "a", some "b", some TodoStatus.pending, none, 1⟩
      (by decide) (by decide) (by decide) (by decide) (by decide)
      (by decide)).1).trans (by decide)

/-! ## Token verification predicates

Structural predicates over the token space, stated independently of
`jwt_decode` so the theorems below relate the code path to them. -/

/-- The token is well-formed and signed with the configured secret. -/
def sig_ok (secret : String) : TokenString → Bool
  | TokenString.malformed => false
  | TokenString.signed key _ => key == secret

/-- The claims object a well-formed token carries. -/
def payloadOf : TokenString → Claims
  | TokenString.malformed => []
  | TokenString.signed _ cs => cs

/-- Expiry validation passes: either no `exp` claim, or an `exp` claim
that coerces to an integer not earlier than `now`. -/
def exp_ok (now : Int) (tok : TokenString) : Bool :=
  match lookupClaim (payloadOf tok) "exp" with
  | none => true
  | some v =>
      match coerceInt v with
      | none => false
      | some e => !(decide (e < now))

lemma jwt_decode_characterization (secret : String) (now : Int)
    (tok : TokenString) :
    (sig_ok secret tok = true ∧ exp_ok now tok = true →
      jwt_decode secret now tok = Except.ok (payloadOf tok)) ∧
    (¬(sig_ok secret tok = true ∧ exp_ok now tok = true) →
      ∃ er, jwt_decode secret now tok = Except.error er) := by
  cases tok with
  | malformed =>
      constructor
      · intro h
        exact absurd h.1 (by simp [sig_ok])
      · intro _
        exact ⟨JwtError.invalidSignature, rfl⟩
  | signed key cs =>
      by_cases hk : (key == secret) = true
      · cases hexp : lookupClaim cs "exp" with
        | none =>
            constructor
            · intro _
              simp [jwt_decode, hk, hexp, payloadOf]
            · intro hcontra
              exact absurd ⟨by simp [sig_ok, hk],
                by simp [exp_ok, payloadOf, hexp]⟩ hcontra
        | some v =>
            cases hci : coerceInt v with
            | none =>
                constructor
                · intro h
                  exact absurd h.2 (by simp [exp_ok, payloadOf, hexp, hci])
                · intro _
                  exact ⟨JwtError.claimsError,
                    by simp [jwt_decode, hk, hexp, hci]⟩
            | some e =>
                by_cases hlt : e < now
                · constructor
                  · intro h
                    exact absurd h.2
                      (by simp [exp_ok, payloadOf, hexp, hci, hlt])
                  · intro _
                    exact ⟨JwtError.expired,
                      by simp [jwt_decode, hk, hexp, hci, hlt]⟩
                · constructor
                  · intro _
                    simp [jwt_decode, hk, hexp, hci, hlt, payloadOf]
                  · intro hcontra
                    refine absurd ⟨by simp [sig_ok, hk], ?_⟩ hcontra
                    simp [exp_ok, payloadOf, hexp, hci, hlt]
      · constructor
        · intro h
          exact absurd h.1 (by simp [sig_ok, hk])
        · intro _
          exact ⟨JwtError.invalidSignature, by simp [jwt_decode, hk]⟩

/-- C3 counterexample: `decode_token` is not total.  A token correctly
signed with the configured key, carrying no expiry and both required
claim fields, but whose `user_id` value is a non-numeric string, makes
the `TokenData` construction raise a pydantic ValidationError that the
`except JWTError` clause does not catch — the call throws instead of
returning claims or invalid. -/
theorem decode_token_total_cex :
    decode_token "k" 0
      (TokenString.signed "k"
        [("user_id", JValue.jstr "abc"), ("email", JValue.jstr "e")]) =
      PyResult.raised := by
  decide

/-- C3 (amended): `decode_token` returns the decoded claims only if the
signature verifies under the configured key, the token is unexpired and
both `user_id` and `email` are present; it signals invalid (None) when
signature or expiry validation fails or either field is absent; but it
is not total — when verification succeeds and both fields are present
while `user_id` is not coercible to an integer or `email` is not a
string, it throws instead of signalling invalid. -/
theorem decode_token_spec (secret : String) (now : Int) (tok : TokenString) :
    (¬(sig_ok secret tok = true ∧ exp_ok now tok = true) →
      decode_token secret now tok = PyResult.ret none) ∧
    (sig_ok secret tok = true → exp_ok now tok = true →
      (lookupClaim (payloadOf tok) "user_id" = none ∨
        lookupClaim (payloadOf tok) "email" = none) →
      decode_token secret now tok = PyResult.ret none) ∧
    (∀ u e, sig_ok secret tok = true → exp_ok now tok = true →
      lookupClaim (payloadOf tok) "user_id" = some u →
      lookupClaim (payloadOf tok) "email" = some e →
      (∀ n s, coerceInt u = some n → coerceStr e = some s →
        decode_token secret now tok =
          PyResult.ret (some { user_id := n, email := s })) ∧
      ((coerceInt u = none ∨ coerceStr e = none) →
        decode_token secret now tok = PyResult.raised)) := by
  refine ⟨?_, ?_, ?_⟩
  · intro h
    obtain ⟨er, her⟩ := (jwt_decode_characterization secret now tok).2 h
    simp only [decode_token, her]
  · intro h1 h2 h3
    have hok := (jwt_decode_characterization secret now tok).1 ⟨h1, h2⟩
    rcases h3 with h3 | h3
    · simp only [decode_token, hok, h3]
    · cases hu2 : lookupClaim (payloadOf tok) "user_id" with
      | none => simp only [decode_token, hok, hu2]
      | some uu => simp only [decode_token, hok, hu2, h3]
  · intro u e h1 h2 hu' he'
    have hok := (jwt_decode_characterization secret now tok).1 ⟨h1, h2⟩
    constructor
    · intro n s hn hs2
      simp only [decode_token, hok, hu', he', hn, hs2]
    · intro hor
      rcases hor with h | h
      · cases hcs : coerceStr e with
        | none => simp only [decode_token, hok, hu', he', h, hcs]
        | some s => simp only [decode_token, hok, hu', he', h, hcs]
      · cases hci : coerceInt u with
        | none => simp only [decode_token, hok, hu', he', hci]
        | some n => simp only [decode_token, hok, hu', he', hci, h]

/-- C3 witness: a concrete well-typed, unexpired, correctly signed token
decodes to its claims through the characterization. -/
theorem decode_token_spec_witness :
    decode_token "k" 5
      (TokenString.signed "k"
        [("user_id", JValue.jint 3), ("email", JValue.jstr "a"),
         ("exp", JValue.jint 9)]) =
      PyResult.ret (some { user_id := 3, email := "a" }) :=
  ((decode_token_spec "k" 5
      (TokenString.signed "k"
        [("user_id", JValue.jint 3), ("email", JValue.jstr "a"),
         ("exp", JValue.jint 9)])).2.2
    (JValue.jint 3) (JValue.jstr "a") (by decide) (by decide) (by decide)
    (by decide)).1 3 "a" (by decide) (by decide)

lemma decode_login_token (secret : String) (uid : Int) (em : String)
    (e now : Int) :
    (¬(e < now) → decode_token secret now
        (TokenString.signed secret
          [("user_id", JValue.jint uid), ("email", JValue.jstr em),
           ("exp", JValue.jint e)]) =
      PyResult.ret (some { user_id := uid, email := em })) ∧
    (e < now → decode_token secret now
        (TokenString.signed secret
          [("user_id", JValue.jint uid), ("email", JValue.jstr em),
           ("exp", JValue.jint e)]) =
      PyResult.ret none) := by
  have hlk : lookupClaim
      [("user_id", JValue.jint uid), ("email", JValue.jstr em),
       ("exp", JValue.jint e)] "exp" = some (JValue.jint e) := rfl
  constructor
  · intro h
    have hsig : sig_ok secret (TokenString.signed secret
        [("user_id", JValue.jint uid), ("email", JValue.jstr em),
         ("exp", JValue.jint e)]) = true := by
      simp [sig_ok]
    have hexp : exp_ok now (TokenString.signed secret
        [("user_id", JValue.jint uid), ("email", JValue.jstr em),
         ("exp", JValue.jint e)]) = true := by
      simp only [exp_ok, payloadOf]
      rw [hlk]
      simp only [coerceInt]
      simp [h]
    have hok := (jwt_decode_characterization secret now _).1 ⟨hsig, hexp⟩
    simp only [payloadOf] at hok
    have h1 : lookupClaim
        [("user_id", JValue.jint uid), ("email", JValue.jstr em),
         ("exp", JValue.jint e)] "user_id" = some (JValue.jint uid) := rfl
    have h2 : lookupClaim
        [("user_id", JValue.jint uid), ("email", JValue.jstr em),
         ("exp", JValue.jint e)] "email" = some (JValue.jstr em) := rfl
    simp only [decode_token, hok, h1, h2, coerceInt, coerceStr]
  · intro h
    have hexp : exp_ok now (TokenString.signed secret
        [("user_id", JValue.jint uid), ("email", JValue.jstr em),
         ("exp", JValue.jint e)]) = false := by
      simp only [exp_ok, payloadOf]
      rw [hlk]
      simp only [coerceInt]
      simp [h]
    have hne : ¬(sig_ok secret (TokenString.signed secret
        [("user_id", JValue.jint uid), ("email", JValue.jstr em),
         ("exp", JValue.jint e)]) = true ∧
        exp_ok now (TokenString.signed secret
          [("user_id", JValue.jint uid), ("email", JValue.jstr em),
           ("exp", JValue.jint e)]) = true) := by
      intro hc
      rw [hexp] at hc
      exact Bool.false_ne_true hc.2
    obtain ⟨er, her⟩ := (jwt_decode_characterization secret now _).2 hne
    simp only [decode_token, her]

/-- C4 counterexample: with a zero expiry override the claimed TTL is
zero seconds, so one second after issuance the spec says verification
must signal invalid — but the Python guard `if expires_delta:` treats
`timedelta(0)` as falsy and silently issues a default 30-minute token,
which still decodes to the original claims. -/
theorem token_roundtrip_cex :
    ((0 : Int) + 0 < 1) ∧
    decode_token "k" 1
      (create_access_token "k" 0
        [("user_id", JValue.jint 7), ("email", JValue.jstr "a")]
        (some 0)) =
      PyResult.ret (some { user_id := 7, email := "a" }) := by
  exact ⟨by decide, by decide⟩

/-- C4 (amended): token round-trip.  For every claims pair, decoding a
token issued by `create_access_token` under the same secret returns
claims equal to the input whenever verification happens at or before the
token's expiry instant, and signals invalid once that instant has
passed; the expiry instant is issuance time plus the supplied non-zero
override (a zero override falls back to the default), or plus the
default 30 minutes when no override is supplied. -/
theorem token_roundtrip (secret : String) (uid : Int) (em : String)
    (t0 now : Int) (expires_delta : Option Int) :
    (now ≤ token_exp t0 expires_delta →
      decode_token secret now
        (create_access_token secret t0
          [("user_id", JValue.jint uid), ("email", JValue.jstr em)]
          expires_delta) =
        PyResult.ret (some { user_id := uid, email := em })) ∧
    (token_exp t0 expires_delta < now →
      decode_token secret now
        (create_access_token secret t0
          [("user_id", JValue.jint uid), ("email", JValue.jstr em)]
          expires_delta) =
        PyResult.ret none) := by
  have hcs : create_access_token secret t0
      [("user_id", JValue.jint uid), ("email", JValue.jstr em)]
      expires_delta =
      TokenString.signed secret
        [("user_id", JValue.jint uid), ("email", JValue.jstr em),
         ("exp", JValue.jint (token_exp t0 expires_delta))] := rfl
  constructor
  · intro hle
    rw [hcs]
    exact (decode_login_token secret uid em (token_exp t0 expires_delta)
      now).1 (by omega)
  · intro hgt
    rw [hcs]
    exact (decode_login_token secret uid em (token_exp t0 expires_delta)
      now).2 hgt

/-- C4 witness: a concrete token decoded just inside and just outside
its expiry. -/
theorem token_roundtrip_witness :
    decode_token "k" 1800
      (create_access_token "k" 0
        [("user_id", JValue.jint 7), ("email", JValue.jstr "a")] none) =
      PyResult.ret (some { user_id := 7, email := "a" }) ∧
    decode_token "k" 1801
      (create_access_token "k" 0
        [("user_id", JValue.jint 7), ("email", JValue.jstr "a")] none) =
      PyResult.ret none :=
  ⟨(token_roundtrip "k" 7 "a" 0 1800 none).1 (by decide),
   (token_roundtrip "k" 7 "a" 0 1801 none).2 (by decide)⟩

/-- C7 counterexample: a request whose bearer token is correctly signed
and unexpired but carries a non-integer `user_id` claim makes
`decode_token` throw (the same uncaught pydantic ValidationError as in
the C3 counterexample), so `get_current_user` produces a server error —
neither the Unauthorized outcome the claim requires for tokens failing
verification nor any other outcome the claim allows. -/
theorem auth_middleware_cex :
    decode_token "k" 0
      (TokenString.signed "k"
        [("user_id", JValue.jstr "abc"), ("email", JValue.jstr "e")]) =
      PyResult.raised ∧
    get_current_user "k" 0 []
      (some (TokenString.signed "k"
        [("user_id", JValue.jstr "abc"), ("email", JValue.jstr "e")])) =
      AuthOutcome.serverError ∧
    AuthOutcome.serverError ≠ AuthOutcome.unauthorized "Not authenticated" ∧
    AuthOutcome.serverError ≠
      AuthOutcome.unauthorized "Could not validate credentials" ∧
    AuthOutcome.serverError ≠ AuthOutcome.forbidden "Inactive user" := by
  exact ⟨by decide, by decide, by decide, by decide, by decide⟩

/-- C7 (amended): authentication middleware, characterized on every
request.  A request with no token is rejected Unauthorized (by the
`OAuth2PasswordBearer` scheme); a token on which verification returns
invalid is rejected Unauthorized; a token whose claims decode but whose
identity id resolves to no stored identity is rejected with the literally
identical Unauthorized outcome (no leak of whether the id existed); a
resolved but inactive identity is rejected Forbidden; a resolved active
identity is attached to the request context; and — the departure from
the original claim — a token on which `decode_token` throws yields a
generic server error instead of Unauthorized.  The six clauses cover
every case of the request, since `decode_token` returns `ret none`,
`ret (some td)` or `raised`. -/
theorem auth_middleware_spec (secret : String) (now : Int)
    (db : List UserRec) (token : Option TokenString) :
    (token = none →
      get_current_user secret now db token =
        AuthOutcome.unauthorized "Not authenticated") ∧
    (∀ tok, token = some tok → decode_token secret now tok = PyResult.ret none →
      get_current_user secret now db token =
        AuthOutcome.unauthorized "Could not validate credentials") ∧
    (∀ tok td, token = some tok →
      decode_token secret now tok = PyResult.ret (some td) →
      get_user_by_id db td.user_id = none →
      get_current_user secret now db token =
        AuthOutcome.unauthorized "Could not validate credentials") ∧
    (∀ tok td u2, token = some tok →
      decode_token secret now tok = PyResult.ret (some td) →
      get_user_by_id db td.user_id = some u2 → u2.is_active = false →
      get_current_user secret now db token =
        AuthOutcome.forbidden "Inactive user") ∧
    (∀ tok td u2, token = some tok →
      decode_token secret now tok = PyResult.ret (some td) →
      get_user_by_id db td.user_id = some u2 → u2.is_active = true →
      get_current_user secret now db token = AuthOutcome.ok u2) ∧
    (∀ tok, token = some tok → decode_token secret now tok = PyResult.raised →
      get_current_user secret now db token = AuthOutcome.serverError) := by
  refine ⟨?_, ?_, ?_, ?_, ?_, ?_⟩
  · intro h
    subst h
    rfl
  · intro tok h hdec
    subst h
    simp only [get_current_user, hdec]
  · intro tok td h hdec hlook
    subst h
    simp only [get_current_user, hdec, hlook]
  · intro tok td u2 h hdec hlook hact
    subst h
    simp only [get_current_user, hdec, hlook, hact]
    rfl
  · intro tok td u2 h hdec hlook hact
    subst h
    simp only [get_current_user, hdec, hlook, hact]
    rfl
  · intro tok h hdec
    subst h
    simp only [get_current_user, hdec]

/-- C7 witness: a concrete active identity resolved from a valid token
is attached. -/
theorem auth_middleware_witness :
    get_current_user "k" 0 [⟨3, "a@b", "al", "h", true, 0, 0⟩]
      (some (TokenString.signed "k"
        [("user_id", JValue.jint 3), ("email", JValue.jstr "a@b")])) =
      AuthOutcome.ok ⟨3, "a@b", "al", "h", true, 0, 0⟩ :=
  (auth_middleware_spec "k" 0 [⟨3, "a@b", "al", "h", true, 0, 0⟩]
      (some (TokenString.signed "k"
        [("user_id", JValue.jint 3), ("email", JValue.jstr "a@b")]))).2.2.2.2.1
    (TokenString.signed "k"
      [("user_id", JValue.jint 3), ("email", JValue.jstr "a@b")])
    { user_id := 3, email := "a@b" }
    ⟨3, "a@b", "al", "h", true, 0, 0⟩
    rfl (by decide) (by decide) (by decide)

end TodoApp
